import Mathlib

/-!
Verification development for the probe harness and shared reference-state
cache of the compare-dashboard-functions repository.

Each Python module relevant to the verified claims is shallowly embedded as
executable Lean definitions below (dictionaries become association lists in
insertion order, matching CPython dict semantics; numeric metric values
become a tagged int/float type over rationals; fallible code returns
Except; async control flow is modelled by explicit outcome-passing).
The theorems at the end of the file settle the claims against these
definitions.
-/

set_option autoImplicit false

namespace Dashboard

/-! ## Data model: src/common/base_metric.py and src/common/metric_config.py -/

/-- Python numeric value distinguishing int from float, as both occur as
metric values: update_metric_value receives int 0 on failure and float
latencies on success.  Floats are modelled as rationals. -/
inductive PyNum where
  | i (n : ℤ)
  | f (q : ℚ)
  deriving DecidableEq, Repr

/-- Label keys of MetricLabelKey in src/common/metric_config.py. -/
inductive MetricLabelKey where
  | sourceRegion
  | targetRegion
  | blockchain
  | provider
  | apiMethod
  | responseStatus
  deriving DecidableEq, Repr

/-- The .value string of each MetricLabelKey enum member. -/
def MetricLabelKey.str : MetricLabelKey → String
  | .sourceRegion => "source_region"
  | .targetRegion => "target_region"
  | .blockchain => "blockchain"
  | .provider => "provider"
  | .apiMethod => "api_method"
  | .responseStatus => "response_status"

/-- MetricLabel from src/common/metric_config.py: one key/value pair. -/
structure MetricLabel where
  key : MetricLabelKey
  value : String
  deriving DecidableEq, Repr

/-- The labels list built by the MetricLabels constructor
(src/common/metric_config.py lines 68-84): six labels in a fixed order. -/
def mkMetricLabels (source_region target_region blockchain provider : String)
    (api_method : String := "default") (response_status : String := "pending") :
    List MetricLabel :=
  [⟨.sourceRegion, source_region⟩, ⟨.targetRegion, target_region⟩,
   ⟨.blockchain, blockchain⟩, ⟨.provider, provider⟩,
   ⟨.apiMethod, api_method⟩, ⟨.responseStatus, response_status⟩]

/-- MetricLabels.update_label: updates the first label whose key matches;
a missing key is logged and the list is unchanged. -/
def updateLabel (k : MetricLabelKey) (v : String) :
    List MetricLabel → List MetricLabel
  | [] => []
  | l :: rest =>
      if l.key = k then ⟨l.key, v⟩ :: rest else l :: updateLabel k v rest

/-- MetricLabels.get_label: returns the first matching label value. -/
def getLabel (k : MetricLabelKey) : List MetricLabel → Option String
  | [] => none
  | l :: rest => if l.key = k then some l.value else getLabel k rest

/-- Per-value label overrides of a MetricValue: a Python dict or None. -/
abbrev LabelDict := Option (List (String × String))

/-- MetricValue from src/common/base_metric.py: a numeric value plus
optional per-value label overrides. -/
structure MetricValue where
  value : PyNum
  labels : LabelDict
  deriving DecidableEq, Repr

/-- The value bag of a metric: a Python dict keyed by value_type strings,
modelled as an association list in insertion order. -/
abbrev ValueBag := List (String × MetricValue)

/-- Python dict lookup d[k] / `k in d`, first matching key. -/
def dictGet (k : String) : ValueBag → Option MetricValue
  | [] => none
  | p :: rest => if p.1 = k then some p.2 else dictGet k rest

/-- Replaces the first entry with the given key (Python dict assignment
to an existing key keeps its position). -/
def setFirst (k : String) (v : MetricValue) : ValueBag → ValueBag
  | [] => []
  | p :: rest => if p.1 = k then (k, v) :: rest else p :: setFirst k v rest

/-- Python dict assignment d[k] = v: in-place update when the key exists,
append at the end otherwise. -/
def dictSet (d : ValueBag) (k : String) (v : MetricValue) : ValueBag :=
  if (dictGet k d).isSome then setFirst k v d else d ++ [(k, v)]

/-- Python truthiness-based `labels or existing` used by
update_metric_value: None and the empty dict are falsy. -/
def pyOrLabels (a b : LabelDict) : LabelDict :=
  match a with
  | none => b
  | some [] => b
  | some l => some l

/-- The mutable state of one BaseMetric instance. -/
structure Metric where
  metric_name : String
  labels : List MetricLabel
  values : ValueBag
  deriving DecidableEq, Repr

/-- BaseMetric.update_metric_value (src/common/base_metric.py lines 77-86):
stores the value under value_type, taking the existing entry's labels when
the passed labels are falsy and the key already exists. -/
def updateMetricValue (m : Metric) (value : PyNum) (value_type : String)
    (labels : LabelDict) : Metric :=
  let labels' :=
    match dictGet value_type m.values with
    | some mv => pyOrLabels labels mv.labels
    | none => labels
  { m with values := dictSet m.values value_type ⟨value, labels'⟩ }

/-- BaseMetric.mark_success: sets response_status to success. -/
def markSuccess (m : Metric) : Metric :=
  { m with labels := updateLabel .responseStatus "success" m.labels }

/-- BaseMetric.mark_failure (src/common/base_metric.py lines 92-97): sets
response_status to failed, then writes int 0 to every key in a snapshot of
the value bag's key list. -/
def markFailure (m : Metric) : Metric :=
  let m1 : Metric := { m with labels := updateLabel .responseStatus "failed" m.labels }
  (m.values.map Prod.fst).foldl
    (fun acc value_type => updateMetricValue acc (.i 0) value_type none) m1

/-! ## Wire formatting: BaseMetric.get_influx_format and
MetricsHandler.get_metrics_text -/

/-- Smallest exponent k with d dividing 10^k, searched up to 40; used to
render a terminating decimal fraction. -/
def decExp (d : ℕ) : ℕ :=
  ((List.range 40).find? (fun k => decide (d ∣ 10 ^ k))).getD 0

/-- Left-pads a digit string with zeros to the given width. -/
def padZeros (w : ℕ) (s : String) : String :=
  String.mk (List.replicate (w - s.length) '0') ++ s

/-- Renders a nonnegative rational with a terminating decimal expansion the
way CPython's str renders the corresponding float (shortest decimal form,
always keeping one fractional digit).  Works on the num/den projections so
that concrete instances evaluate inside the kernel. -/
def renderNonnegRat (q : ℚ) : String :=
  let k := decExp q.den
  let scale : ℕ := 10 ^ k / q.den
  let n : ℕ := q.num.toNat * scale
  if k = 0 then toString n ++ ".0"
  else toString (n / 10 ^ k) ++ "." ++ padZeros k (toString (n % 10 ^ k))

/-- Python str of a metric value: ints print without a decimal point,
floats with their (terminating) decimal expansion. -/
def renderPyNum : PyNum → String
  | .i n => toString n
  | .f q =>
      if q.num < 0 then "-" ++ renderNonnegRat (-q) else renderNonnegRat q

/-- BaseMetric.get_influx_format (src/common/base_metric.py lines 51-75):
raises on an empty value bag, otherwise renders one line per value-bag
entry, appending a synthetic metric_type tag to the instance's label set. -/
def getInfluxFormat (m : Metric) : Except String (List String) :=
  if m.values = [] then .error "No metric values set"
  else
    let base_tags := String.intercalate ","
      (m.labels.map (fun l => l.key.str ++ "=" ++ l.value))
    .ok (m.values.map (fun p =>
      let tags :=
        if base_tags ≠ "" then base_tags ++ ",metric_type=" ++ p.1
        else "metric_type=" ++ p.1
      let line := m.metric_name
      let line := if tags ≠ "" then line ++ "," ++ tags else line
      line ++ " value=" ++ renderPyNum p.2.value))

/-- MetricsHandler.get_metrics_influx_format (src/common/metrics_handler.py
lines 40-46): concatenates the lines of every instance with a non-empty
value bag. -/
def getMetricsInfluxFormat (instances : List Metric) : List String :=
  (instances.filterMap (fun i =>
    if i.values = [] then none
    else (getInfluxFormat i).toOption)).flatten

/-- MetricsHandler.get_metrics_text (src/common/metrics_handler.py lines
48-51): appends one shared nanosecond timestamp to every line and joins
with newlines. -/
def getMetricsText (instances : List Metric) (current_time : ℕ) : String :=
  String.intercalate "\n"
    ((getMetricsInfluxFormat instances).map
      (fun metric => metric ++ " " ++ toString current_time))

/-! ## Timing utility: src/common/http_timing.py -/

/-- The recorded monotonic-clock instants of HttpTimingCollector.timing;
a pair that was never recorded is none. -/
structure TimingData where
  start : Option ℚ
  stop : Option ℚ
  conn_start : Option ℚ
  conn_end : Option ℚ
  deriving DecidableEq, Repr

/-- HttpTimingCollector.get_connection_time (src/common/http_timing.py
lines 55-59): conn_end - conn_start when both were recorded, else 0. -/
def getConnectionTime (t : TimingData) : ℚ :=
  match t.conn_start, t.conn_end with
  | some a, some b => b - a
  | _, _ => 0

/-- HttpTimingCollector.get_total_time (src/common/http_timing.py lines
61-65): end - start when both were recorded, else 0. -/
def getTotalTime (t : TimingData) : ℚ :=
  match t.start, t.stop with
  | some a, some b => b - a
  | _, _ => 0

/-- HttpTimingCollector.get_response_time (src/common/http_timing.py lines
67-73): total minus connection time clamped at 0 when excluding connection
time, plain total otherwise. -/
def getResponseTime (t : TimingData) (exclude_connection_time : Bool) : ℚ :=
  let total_time := getTotalTime t
  if exclude_connection_time then
    max 0 (total_time - getConnectionTime t)
  else total_time

/-! ## Probe factory: src/common/factory.py -/

/-- EndpointConfig from src/common/metric_config.py. -/
structure EndpointConfig where
  main_endpoint : Option String
  tx_endpoint : Option String
  ws_endpoint : Option String
  deriving DecidableEq, Repr

/-- One entry of MetricFactory._registry: the registered class (identified
by its __name__, which is all create_metrics inspects) and metric name. -/
structure MetricRegistration where
  className : String
  metric_name : String
  deriving DecidableEq, Repr

/-- The kwargs threaded through MetricFactory.create_metrics by
MetricsHandler.collect_metrics. -/
structure FactoryKwargs where
  http_endpoint : Option String
  ws_endpoint : Option String
  tx_endpoint : Option String
  provider : String
  source_region : String
  target_region : String
  deriving DecidableEq, Repr

/-- The observable fields of a created metric instance. -/
structure CreatedMetric where
  className : String
  metric_name : String
  labels : List MetricLabel
  endpoints : EndpointConfig
  deriving DecidableEq, Repr

/-- Python truthiness of an optional string: None and the empty string are
falsy (the guard `if kwargs.get("tx_endpoint")`). -/
def pyTruthy : Option String → Bool
  | none => false
  | some s => s ≠ ""

/-- MetricFactory._create_single_metric (src/common/factory.py lines
159-186): builds the fresh label set and instantiates the class against
the given endpoint configuration. -/
def createSingleMetric (blockchain_name : String) (reg : MetricRegistration)
    (endpoints : EndpointConfig) (source_region target_region provider : String) :
    CreatedMetric :=
  { className := reg.className
  , metric_name := reg.metric_name
  , labels := mkMetricLabels source_region target_region blockchain_name provider
  , endpoints := endpoints }

/-- MetricFactory._create_solana_metrics (src/common/factory.py lines
109-157): one instance on the main endpoint, plus, when a truthy
tx_endpoint is configured, a second instance on a deep copy of the config
with the main endpoint replaced by tx_endpoint and the provider name
suffixed with _tx. -/
def createSolanaMetrics (blockchain_name : String) (reg : MetricRegistration)
    (endpoints : EndpointConfig) (kwargs : FactoryKwargs)
    (source_region target_region provider : String) : List CreatedMetric :=
  let first := createSingleMetric blockchain_name reg endpoints
    source_region target_region provider
  if pyTruthy kwargs.tx_endpoint then
    let config_copy := { endpoints with main_endpoint := kwargs.tx_endpoint }
    [first, createSingleMetric blockchain_name reg config_copy
      source_region target_region (provider ++ "_tx")]
  else [first]

/-- MetricFactory.create_metrics (src/common/factory.py lines 47-99)
specialised to the registry list already selected for the blockchain:
_setup_endpoint_config builds the endpoint config from kwargs, then each
registration is instantiated, special-casing SolanaLandingMetric. -/
def createMetrics (blockchain_name : String) (registry : List MetricRegistration)
    (kwargs : FactoryKwargs) : List CreatedMetric :=
  let endpoints : EndpointConfig :=
    { main_endpoint := kwargs.http_endpoint
    , tx_endpoint := none
    , ws_endpoint := kwargs.ws_endpoint }
  registry.flatMap (fun reg =>
    if reg.className = "SolanaLandingMetric" then
      createSolanaMetrics blockchain_name reg endpoints kwargs
        kwargs.source_region kwargs.target_region kwargs.provider
    else
      [createSingleMetric blockchain_name reg endpoints
        kwargs.source_region kwargs.target_region kwargs.provider])

/-! ## Reference-state cache: src/common/state/blockchain_state.py -/

/-- A value of the stored blob document: chain entries are JSON objects of
string fields; the updated_at / created_at bookkeeping keys are integers
(the isinstance(dict) check in _fetch_state_data skips them). -/
inductive DocEntry where
  | obj (fields : List (String × String))
  | num (n : ℤ)
  deriving DecidableEq, Repr

/-- The stored blob document: one JSON object keyed by chain names plus
bookkeeping keys, in insertion order. -/
abbrev StateDocument := List (String × DocEntry)

/-- Python dict lookup on a string-field object. -/
def fieldGet (k : String) : List (String × String) → Option String
  | [] => none
  | p :: rest => if p.1 = k then some p.2 else fieldGet k rest

/-- Python dict lookup on the document. -/
def docGet (k : String) : StateDocument → Option DocEntry
  | [] => none
  | p :: rest => if p.1 = k then some p.2 else docGet k rest

/-- Python str.lower on one character, for the ASCII chain names the
handlers pass. -/
def lowerChar (c : Char) : Char :=
  if 'A' ≤ c ∧ c ≤ 'Z' then Char.ofNat (c.toNat + 32) else c

/-- Python str.lower, applied by get_data to the blockchain name. -/
def pyLower (s : String) : String := String.mk (s.data.map lowerChar)

/-- The backward-compatibility rewrite of one document entry: a chain
object missing the old_block key gets it appended as the empty string;
other entries are untouched. -/
def backfillEntry : DocEntry → DocEntry
  | .obj fields =>
      if (fieldGet "old_block" fields).isSome then .obj fields
      else .obj (fields ++ [("old_block", "")])
  | .num n => .num n

/-- The backward-compatibility pass of BlockchainState._fetch_state_data
(src/common/state/blockchain_state.py lines 55-58), applied to every
entry of the document. -/
def backfillOldBlock (doc : StateDocument) : StateDocument :=
  doc.map (fun p => (p.1, backfillEntry p.2))

/-- One attempt of BlockchainState.get_data: listing plus fetching the blob
either yields the raw document or fails with an error message (network
error, blob not found, malformed JSON are all exceptions to the except
clause). -/
abbrev FetchAttempt := Except String StateDocument

/-- Result of the modelled BlockchainState.get_data: the returned per-chain
entry or the raised error, together with the attempts consumed and the
total seconds slept between attempts. -/
structure GetDataResult where
  result : Except String DocEntry
  attemptsMade : ℕ
  sleepTotal : ℕ
  deriving Repr

/-- BlockchainState._RETRIES. -/
def STATE_RETRIES : ℕ := 3

/-- BlockchainState._RETRY_DELAY in seconds. -/
def STATE_RETRY_DELAY : ℕ := 3

/-- The retry loop of BlockchainState.get_data (lines 62-88) over the
outcomes of successive attempts: on success the chain's entry (default
empty object) of the backfilled document is returned; on failure it sleeps
the fixed delay while attempts remain, and raises after the last one. -/
def getDataGo (attempts : ℕ → FetchAttempt) (blockchain : String) :
    (attempt : ℕ) → (remaining : ℕ) → GetDataResult
  | _, 0 =>
      { result := .error "Max retries reached for fetching state data."
      , attemptsMade := 0, sleepTotal := 0 }
  | attempt, remaining + 1 =>
      match attempts attempt with
      | .ok doc =>
          { result := .ok
              ((docGet (pyLower blockchain) (backfillOldBlock doc)).getD (.obj []))
          , attemptsMade := attempt, sleepTotal := 0 }
      | .error _ =>
          if remaining = 0 then
            { result := .error "Max retries reached for fetching state data."
            , attemptsMade := attempt, sleepTotal := 0 }
          else
            let rest := getDataGo attempts blockchain (attempt + 1) remaining
            { rest with sleepTotal := STATE_RETRY_DELAY + rest.sleepTotal }

/-- BlockchainState.get_data (src/common/state/blockchain_state.py lines
62-88) over the outcomes of its three attempts. -/
def getData (attempts : ℕ → FetchAttempt) (blockchain : String) : GetDataResult :=
  getDataGo attempts blockchain 1 STATE_RETRIES

/-! ## Collection run: MetricsHandler.handle, src/common/metrics_handler.py -/

/-- What a completed MetricsHandler.handle run reports. -/
structure HandleOutcome where
  /-- Metric instances whose collection was started (one set per provider). -/
  probesRun : ℕ
  status : String
  deriving DecidableEq, Repr

/-- MetricsHandler.handle (src/common/metrics_handler.py lines 107-138)
abstracted over the store read: the entire body sits in one try block, and
the except clause logs and re-raises, so an exception from
BlockchainState.get_data propagates before any probe is built; only when
the read returns does collection proceed for every matching provider. -/
def handleRun (stateRead : Except String DocEntry) (providers : List String) :
    Except String HandleOutcome :=
  match stateRead with
  | .error e => .error e
  | .ok _ => .ok { probesRun := providers.length, status := "done" }

/-! ## Blob state store: src/common/state/blob_storage.py -/

/-- Python dict assignment on the document: in-place update of an existing
key, append otherwise. -/
def docAssign (doc : StateDocument) (k : String) (v : DocEntry) :
    StateDocument :=
  if (docGet k doc).isSome then
    doc.map (fun p => if p.1 = k then (p.1, v) else p)
  else doc ++ [(k, v)]

/-- BlobStorageHandler.update (src/common/state/blob_storage.py lines
65-79), success path of one attempt: reads the current document, replaces
the chain's entry by an object holding exactly the block and tx fields,
and refreshes updated_at.  The old-block identifier is not a parameter of
this write path. -/
def blobUpdate (doc : StateDocument) (blockchain block tx : String)
    (now : ℤ) : StateDocument :=
  docAssign (docAssign doc blockchain (.obj [("block", block), ("tx", tx)]))
    "updated_at" (.num now)

/-- Reading one chain back through the Reference-State Cache when the blob
fetch succeeds with the given document: the backward-compatibility pass of
_fetch_state_data followed by get_data's per-chain selection. -/
def readChain (doc : StateDocument) (blockchain : String) : DocEntry :=
  (docGet (pyLower blockchain) (backfillOldBlock doc)).getD (.obj [])

/-! ## Reference-state fetcher: src/common/state/blockchain_fetcher.py -/

/-- The JSON-RPC response of one POST in _make_rpc_request: either a
result (data.get("result"), possibly None) or an error object with a
code. -/
inductive RawRpcResponse where
  | result (r : Option String)
  | rpcError (code : ℤ)
  deriving DecidableEq, Repr

/-- Outcome of BlockchainDataFetcher._make_rpc_request together with the
number of attempts consumed. -/
structure RpcCallResult where
  outcome : Except String (Option String)
  attemptsMade : ℕ
  deriving Repr

/-- BlockchainDataFetcher._max_retries. -/
def FETCHER_MAX_RETRIES : ℕ := 3

/-- The retry loop of _make_rpc_request (src/common/state/
blockchain_fetcher.py lines 38-73): a -32004 error raises Block not
available immediately, without a further attempt; any other RPC error is
retried until the attempt budget is exhausted. -/
def makeRpcRequestGo (responses : ℕ → RawRpcResponse) :
    (attempt : ℕ) → (remaining : ℕ) → RpcCallResult
  | attempt, 0 => { outcome := .error "RPC error after all retries", attemptsMade := attempt - 1 }
  | attempt, remaining + 1 =>
      match responses attempt with
      | .result r => { outcome := .ok r, attemptsMade := attempt }
      | .rpcError code =>
          if code = -32004 then
            { outcome := .error "Block not available", attemptsMade := attempt }
          else if remaining = 0 then
            { outcome := .error "RPC error after all retries", attemptsMade := attempt }
          else makeRpcRequestGo responses (attempt + 1) remaining

/-- BlockchainDataFetcher._make_rpc_request over the per-attempt
responses. -/
def makeRpcRequest (responses : ℕ → RawRpcResponse) : RpcCallResult :=
  makeRpcRequestGo responses 1 FETCHER_MAX_RETRIES

/-- Per-slot outcome of the getBlock RPC call made inside
_get_block_in_range, after _make_rpc_request's own retry handling:
a block (or a falsy None result), the Block-not-available error raised for
code -32004, or any other raised error. -/
inductive SlotOutcome where
  | ok (block : Option String)
  | notAvailable
  | otherError (msg : String)
  deriving DecidableEq, Repr

/-- The slot loop body of BlockchainDataFetcher._get_block_in_range
(src/common/state/blockchain_fetcher.py lines 111-137) over an explicit
slot list: a truthy block is returned with its slot; a falsy block and the
Block-not-available error both move on to the next slot; any other error
propagates; an exhausted list raises. -/
def scanSlots (f : ℤ → SlotOutcome) : List ℤ → Except String (ℤ × String)
  | [] => .error "No blocks found in range"
  | slot :: rest =>
      match f slot with
      | .ok (some b) => .ok (slot, b)
      | .ok none => scanSlots f rest
      | .notAvailable => scanSlots f rest
      | .otherError msg => .error msg

/-- The ascending slot list range(slot_start, slot_end + 1) iterated by
_get_block_in_range. -/
def slotRange (slot_start slot_end : ℤ) : List ℤ :=
  (List.range (slot_end + 1 - slot_start).toNat).map
    (fun (i : ℕ) => slot_start + (i : ℤ))

/-- BlockchainDataFetcher._get_block_in_range. -/
def getBlockInRange (f : ℤ → SlotOutcome) (slot_start slot_end : ℤ) :
    Except String (ℤ × String) :=
  scanSlots f (slotRange slot_start slot_end)

/-- The old-block search of _fetch_solana_data (src/common/state/
blockchain_fetcher.py line 166): target_slot is the offset slot clamped at
0 and the searched window is target_slot - 100 through target_slot. -/
def solanaOldBlockSearch (f : ℤ → SlotOutcome) (latest_slot offset : ℤ) :
    Except String (ℤ × String) :=
  let target_slot := max 0 (latest_slot - offset)
  getBlockInRange f (target_slot - 100) target_slot

/-- Search as worded by the spec sentence for C8, for comparison: proceeds
downward from the target slot within the bounded window, accepting the
first slot that exists. -/
def specDownwardSearch (f : ℤ → SlotOutcome) (latest_slot offset : ℤ) :
    Except String (ℤ × String) :=
  let target_slot := max 0 (latest_slot - offset)
  scanSlots f ((slotRange (target_slot - 100) target_slot).reverse)

/-! ## HTTP retry loop: measure_http_request_timing,
src/common/http_timing.py lines 110-156 -/

/-- MAX_RETRIES of src/common/http_timing.py: total attempt budget. -/
def HTTP_MAX_RETRIES : ℕ := 2

/-- DEFAULT_RATE_LIMIT_WAIT of src/common/http_timing.py, used when the
Retry-After header is absent. -/
def DEFAULT_RATE_LIMIT_WAIT : ℕ := 3

/-- Result of the retry loop: attempts actually sent, total seconds slept
between attempts, and the status handed back to the caller (none only when
the attempt budget is zero and no request was ever sent). -/
structure HttpTimingResult where
  attemptsMade : ℕ
  sleepTotal : ℕ
  finalStatus : Option ℕ
  deriving DecidableEq, Repr

/-- The attempt loop of measure_http_request_timing over the transport's
per-attempt responses, each a status code plus optional Retry-After
header.  A 429 before the last attempt sleeps Retry-After (default 3)
scaled by the exponential-backoff factor 2^retry_count and retries;
every other status, 429 on the last attempt included, breaks and is
returned to the caller.  The Python guard retry_count < MAX_RETRIES - 1 is
written k + 1 < maxRetries, equivalent over the naturals reached by the
loop. -/
def measureTimingGo (maxRetries : ℕ) (responses : ℕ → ℕ × Option ℕ) :
    (k : ℕ) → (remaining : ℕ) → HttpTimingResult
  | _, 0 => { attemptsMade := 0, sleepTotal := 0, finalStatus := none }
  | k, remaining + 1 =>
      let resp := responses k
      if resp.1 = 429 ∧ k + 1 < maxRetries then
        let wait_time := resp.2.getD DEFAULT_RATE_LIMIT_WAIT
        let rest := measureTimingGo maxRetries responses (k + 1) remaining
        { rest with sleepTotal := wait_time * 2 ^ k + rest.sleepTotal }
      else { attemptsMade := k + 1, sleepTotal := 0, finalStatus := some resp.1 }

/-- measure_http_request_timing's retry behaviour (src/common/
http_timing.py lines 110-156) with a configurable attempt budget; the
source fixes the budget to HTTP_MAX_RETRIES = 2. -/
def measureHttpRequestTiming (maxRetries : ℕ) (responses : ℕ → ℕ × Option ℕ) :
    HttpTimingResult :=
  measureTimingGo maxRetries responses 0 maxRetries

/-! ## EVM WebSocket subscribe: WSBlockLatencyMetric.subscribe,
src/metrics/ethereum.py lines 194-245 -/

/-- A parameter of the eth_subscribe params array. -/
inductive SubParam where
  | newHeads
  | flagFalse
  deriving DecidableEq, Repr

/-- The subscription request envelope sent over the socket. -/
structure SubRequest where
  id : ℕ
  method : String
  params : List SubParam
  deriving DecidableEq, Repr

/-- The primary subscription shape: params newHeads plus the boolean
False flag. -/
def primarySubRequest : SubRequest :=
  { id := 1, method := "eth_subscribe", params := [.newHeads, .flagFalse] }

/-- The fallback subscription shape: params newHeads only. -/
def fallbackSubRequest : SubRequest :=
  { id := 1, method := "eth_subscribe", params := [.newHeads] }

/-- What WSBlockLatencyMetric.subscribe did: the requests sent in order,
and either a raised error or the stored subscription id. -/
structure SubscribeOutcome where
  sent : List SubRequest
  result : Except String String
  deriving Repr

/-- WSBlockLatencyMetric.subscribe (src/metrics/ethereum.py lines 194-245)
over the acknowledgement results of the primary and fallback requests,
each the parsed response's result field (none models JSON null or a
missing key).  The fallback acknowledgement is only consulted when the
primary one is null. -/
def wsSubscribe (primaryAck fallbackAck : Option String) : SubscribeOutcome :=
  match primaryAck with
  | some r => { sent := [primarySubRequest], result := .ok r }
  | none =>
      match fallbackAck with
      | some r =>
          { sent := [primarySubRequest, fallbackSubRequest], result := .ok r }
      | none =>
          { sent := [primarySubRequest, fallbackSubRequest]
          , result := .error "Subscription to newHeads failed even without flag" }

/-! ## WebSocket probe lifecycle under cancellation:
WebSocketMetric.collect_metric, src/common/metric_types.py lines 58-84 -/

/-- Outcome of one awaited call inside collect_metric: it returns, raises
an ordinary Exception, or the surrounding task's cancellation is delivered
at this await point (CancelledError, which no except Exception clause
catches). -/
inductive StepOutcome where
  | ok
  | exc
  | cancel
  deriving DecidableEq, Repr

/-- The environment of one collect_metric run: the outcome of each awaited
call, and whether a listen that returned produced non-None data. -/
structure WsRunEnv where
  connect : StepOutcome
  subscribe : StepOutcome
  listen : StepOutcome
  listenData : Bool
  unsub : StepOutcome
  close : StepOutcome
  deriving DecidableEq, Repr

/-- How the collect_metric coroutine terminates. -/
inductive ExitKind where
  | normal
  | cancelledPropagated
  deriving DecidableEq, Repr

/-- Observable trace of one collect_metric run. -/
structure WsRunTrace where
  unsubStarted : Bool
  unsubCompleted : Bool
  closeStarted : Bool
  closeCompleted : Bool
  cleanupErrorLogged : Bool
  markedFailure : Bool
  markedSuccess : Bool
  exit : ExitKind
  deriving DecidableEq, Repr

/-- The cleanup clause of collect_metric (src/common/metric_types.py lines
78-84), entered with the websocket bound: a plain try around unsubscribe
then close whose except Exception logs; there is no asyncio.shield, so a
cancellation delivered at either await escapes the except clause, aborts
the rest of the cleanup and propagates; an ordinary exception from
unsubscribe likewise skips the close, though it is logged and
swallowed. -/
def wsCleanup (env : WsRunEnv) (markedFailure markedSuccess : Bool)
    (bodyExit : ExitKind) : WsRunTrace :=
  match env.unsub with
  | .cancel =>
      { unsubStarted := true, unsubCompleted := false
      , closeStarted := false, closeCompleted := false
      , cleanupErrorLogged := false
      , markedFailure := markedFailure, markedSuccess := markedSuccess
      , exit := .cancelledPropagated }
  | .exc =>
      { unsubStarted := true, unsubCompleted := false
      , closeStarted := false, closeCompleted := false
      , cleanupErrorLogged := true
      , markedFailure := markedFailure, markedSuccess := markedSuccess
      , exit := bodyExit }
  | .ok =>
      match env.close with
      | .cancel =>
          { unsubStarted := true, unsubCompleted := true
          , closeStarted := true, closeCompleted := false
          , cleanupErrorLogged := false
          , markedFailure := markedFailure, markedSuccess := markedSuccess
          , exit := .cancelledPropagated }
      | .exc =>
          { unsubStarted := true, unsubCompleted := true
          , closeStarted := true, closeCompleted := false
          , cleanupErrorLogged := true
          , markedFailure := markedFailure, markedSuccess := markedSuccess
          , exit := bodyExit }
      | .ok =>
          { unsubStarted := true, unsubCompleted := true
          , closeStarted := true, closeCompleted := true
          , cleanupErrorLogged := false
          , markedFailure := markedFailure, markedSuccess := markedSuccess
          , exit := bodyExit }

/-- WebSocketMetric.collect_metric (src/common/metric_types.py lines
58-84): the body's except Exception marks failure but does not catch
CancelledError; the finally clause runs the cleanup only when the
websocket variable was assigned, and a CancelledError pending from the
body resumes after a cleanup that finishes without raising. -/
def wsCollectMetric (env : WsRunEnv) : WsRunTrace :=
  match env.connect with
  | .cancel =>
      { unsubStarted := false, unsubCompleted := false
      , closeStarted := false, closeCompleted := false
      , cleanupErrorLogged := false
      , markedFailure := false, markedSuccess := false
      , exit := .cancelledPropagated }
  | .exc =>
      { unsubStarted := false, unsubCompleted := false
      , closeStarted := false, closeCompleted := false
      , cleanupErrorLogged := false
      , markedFailure := true, markedSuccess := false
      , exit := .normal }
  | .ok =>
      match env.subscribe with
      | .cancel => wsCleanup env false false .cancelledPropagated
      | .exc => wsCleanup env true false .normal
      | .ok =>
          match env.listen with
          | .cancel => wsCleanup env false false .cancelledPropagated
          | .exc => wsCleanup env true false .normal
          | .ok =>
              if env.listenData then wsCleanup env false true .normal
              else wsCleanup env true false .normal

/-! ## Concrete instances used by the theorems below -/

/-- The probe of the concrete line-protocol scenario: metric name
response_latency_seconds, labels blockchain=solana and provider=x, one
response_time entry holding the float 0.042. -/
def exampleWireMetric : Metric :=
  { metric_name := "response_latency_seconds"
  , labels := [⟨.blockchain, "solana"⟩, ⟨.provider, "x"⟩]
  , values := [("response_time", ⟨.f (mkRat 42 1000), none⟩)] }

/-- A transport whose first maxRetries - 1 responses are 429 with
Retry-After 5 and whose last response is 200. -/
def resp429Then200 (maxRetries : ℕ) : ℕ → ℕ × Option ℕ :=
  fun k => if k + 1 < maxRetries then (429, some 5) else (200, none)

/-- A transport answering 500 immediately. -/
def resp500 : ℕ → ℕ × Option ℕ := fun _ => (500, none)

/-- A store whose every read attempt fails. -/
def failingStore : ℕ → FetchAttempt := fun _ => .error "connection error"

/-- Slot availability where only slots 900 and 1000 hold a block and all
other slots were skipped. -/
def exampleAvail : ℤ → SlotOutcome :=
  fun s => if s = 900 ∨ s = 1000 then .ok (some "blk") else .notAvailable

/-- A collect_metric run cancelled at the listen await and again at the
unsubscribe await of the cleanup clause. -/
def cancelDuringCleanupEnv : WsRunEnv :=
  { connect := .ok, subscribe := .ok, listen := .cancel, listenData := false
  , unsub := .cancel, close := .ok }

/-- A concrete value bag with two entries, the first carrying per-value
label overrides. -/
def exampleBag : ValueBag :=
  [ ("response_time", ⟨.f (mkRat 1 2), some [("tx_type", "memo")]⟩)
  , ("slot_latency", ⟨.i 7, none⟩) ]

/-! ## Theorems -/

/-- Claim C10: HttpTimingCollector.get_response_time with
exclude_connection_time true returns max(0, total - connection) for every
recorded timing, hence is never negative, even when connection time
exceeds total wall time; a pair of instants that was never recorded
contributes 0; with exclude_connection_time false it returns the total
wall time unmodified. -/
theorem response_time_clamp :
    (∀ t : TimingData,
      getResponseTime t true = max 0 (getTotalTime t - getConnectionTime t))
    ∧ (∀ t : TimingData, 0 ≤ getResponseTime t true)
    ∧ (∀ t : TimingData, getResponseTime t false = getTotalTime t)
    ∧ (∀ a b c : Option ℚ, getConnectionTime ⟨a, b, c, none⟩ = 0
        ∧ getConnectionTime ⟨a, b, none, c⟩ = 0)
    ∧ (∀ a b c : Option ℚ, getTotalTime ⟨none, a, b, c⟩ = 0
        ∧ getTotalTime ⟨a, none, b, c⟩ = 0) := by
  refine ⟨fun t => rfl, fun t => ?_, fun t => rfl, ?_, ?_⟩
  · exact le_max_left 0 _
  · intro a b c
    exact ⟨by cases c <;> rfl, rfl⟩
  · intro a b c
    exact ⟨rfl, by cases a <;> rfl⟩

/-- Claim C3: the rendered wire output has one line per (metric,
value_type) pair, and the concrete probe with metric name
response_latency_seconds, labels blockchain=solana and provider=x, and a
single response_time entry 0.042 renders, for every timestamp T, to
exactly the line of the claim with T appended. -/
theorem influx_line_protocol_format :
    (∀ T : ℕ, getMetricsText [exampleWireMetric] T =
      "response_latency_seconds,blockchain=solana,provider=x,metric_type=response_time value=0.042 "
        ++ toString T)
    ∧ (∀ (name : String) (labels : List MetricLabel) (p : String × MetricValue)
        (vs : ValueBag), ∃ lines,
          getInfluxFormat ⟨name, labels, p :: vs⟩ = .ok lines
          ∧ lines.length = (p :: vs).length) := by
  constructor
  · intro T
    rfl
  · intro name labels p vs
    exact ⟨_, rfl, by simp⟩

/-- Claim C9: WSBlockLatencyMetric.subscribe sends the primary newHeads
request with the False flag; a null primary acknowledgement triggers
exactly one fallback request without the flag; it raises only when the
fallback acknowledgement is also null, and on either success the
acknowledged result is stored as the subscription id. -/
theorem ws_subscribe_fallback_once :
    (∀ (fb : Option String) (r : String),
      wsSubscribe (some r) fb =
        { sent := [primarySubRequest], result := .ok r })
    ∧ (∀ s : String,
      wsSubscribe none (some s) =
        { sent := [primarySubRequest, fallbackSubRequest], result := .ok s })
    ∧ wsSubscribe none none =
        { sent := [primarySubRequest, fallbackSubRequest]
        , result := .error "Subscription to newHeads failed even without flag" }
    ∧ primarySubRequest.params = [.newHeads, .flagFalse]
    ∧ fallbackSubRequest.params = [.newHeads] :=
  ⟨fun _ _ => rfl, fun _ => rfl, rfl, rfl, rfl⟩

/-- The retry loop on the 429-then-200 transport: every attempt before the
last sleeps Retry-After scaled by the backoff factor, and the loop stops
at the first 200. -/
lemma measureTimingGo_429 (N : ℕ) :
    ∀ (r k : ℕ), k + r = N → 1 ≤ r →
      measureTimingGo N (resp429Then200 N) k r =
        { attemptsMade := N, sleepTotal := 5 * (2 ^ (N - 1) - 2 ^ k)
        , finalStatus := some 200 } := by
  intro r
  induction r with
  | zero => omega
  | succ r ih =>
      intro k hk hr
      by_cases hlt : k + 1 < N
      · have hr1 : 1 ≤ r := by omega
        have hrec := ih (k + 1) (by omega) hr1
        have h2 : 2 ^ (k + 1) ≤ 2 ^ (N - 1) :=
          Nat.pow_le_pow_right (by norm_num) (by omega)
        have h3 : (2 : ℕ) ^ (k + 1) = 2 * 2 ^ k := by ring
        simp only [measureTimingGo, resp429Then200, if_pos hlt, hrec]
        rw [if_pos ⟨trivial, hlt⟩]
        simp only [Option.getD_some, HttpTimingResult.mk.injEq, true_and,
          and_true]
        omega
      · have hk1 : k + 1 = N := by omega
        have hNk : N - 1 = k := by omega
        simp only [measureTimingGo, resp429Then200, if_neg hlt, hNk]
        rw [if_neg (by simp [hlt])]
        simp [HttpTimingResult.mk.injEq, hk1, Nat.sub_self]

/-- Claim C5: on the HTTP timing path with N configured attempts, a
transport answering 429 with Retry-After 5 on the first N-1 attempts and
200 on the last is asked exactly N times and the total sleep is at least
the sum of the declared Retry-After values; a first response with any
status other than 429 is returned to the caller after a single attempt
with no sleep. -/
theorem http_429_retry_budget :
    (∀ N : ℕ, 1 ≤ N →
      (measureHttpRequestTiming N (resp429Then200 N)).attemptsMade = N
      ∧ (measureHttpRequestTiming N (resp429Then200 N)).finalStatus = some 200
      ∧ 5 * (N - 1) ≤ (measureHttpRequestTiming N (resp429Then200 N)).sleepTotal)
    ∧ (∀ (responses : ℕ → ℕ × Option ℕ) (N : ℕ), 1 ≤ N →
        (responses 0).1 ≠ 429 →
        measureHttpRequestTiming N responses =
          { attemptsMade := 1, sleepTotal := 0
          , finalStatus := some (responses 0).1 }) := by
  constructor
  · intro N hN
    have h := measureTimingGo_429 N N 0 (by omega) hN
    have hpow : N - 1 < 2 ^ (N - 1) := Nat.lt_two_pow (N - 1)
    unfold measureHttpRequestTiming
    rw [h]
    exact ⟨rfl, rfl, by simp only []; omega⟩
  · intro responses N hN h429
    obtain ⟨M, rfl⟩ : ∃ M, N = M + 1 := ⟨N - 1, by omega⟩
    have hguard : ¬((responses 0).1 = 429 ∧ 0 + 1 < M + 1) := fun hc => h429 hc.1
    simp only [measureHttpRequestTiming, measureTimingGo, if_neg hguard]

/-- Witness for http_429_retry_budget at the source's configured budget
HTTP_MAX_RETRIES = 2 and at the 500-answering transport. -/
theorem http_429_retry_budget_witness :
    ((measureHttpRequestTiming 2 (resp429Then200 2)).attemptsMade = 2
     ∧ (measureHttpRequestTiming 2 (resp429Then200 2)).finalStatus = some 200
     ∧ 5 * (2 - 1) ≤ (measureHttpRequestTiming 2 (resp429Then200 2)).sleepTotal)
    ∧ measureHttpRequestTiming 2 resp500 =
        { attemptsMade := 1, sleepTotal := 0, finalStatus := some 500 } :=
  ⟨http_429_retry_budget.1 2 (by norm_num),
   http_429_retry_budget.2 resp500 2 (by norm_num) (by decide)⟩

/-- Counterexample for claim C2: when every read attempt fails,
BlockchainState.get_data raises after its three attempts, and
MetricsHandler.handle — whose single try block wraps the get_data call and
whose except clause re-raises — propagates that error, so the collection
run IS aborted: handle yields the store error instead of a completed
outcome for the two configured providers. -/
theorem store_error_aborts_collection_cex :
    (getData failingStore "ethereum").result =
      .error "Max retries reached for fetching state data."
    ∧ (getData failingStore "ethereum").attemptsMade = 3
    ∧ handleRun (getData failingStore "ethereum").result ["provider1", "provider2"] =
        .error "Max retries reached for fetching state data." :=
  ⟨rfl, rfl, rfl⟩

/-- Claim C2 as amended: get_data retries 3 attempts with a fixed 3-second
delay after each of the first two failures and raises after exhausting
them; handle does not catch the store error — it propagates, aborting the
whole collection (no probes run).  The degrade-to-empty-state path exists
only when the blob read succeeds: then handle proceeds for every
provider, with a missing chain entry read back as the empty dict. -/
theorem state_retry_exhaustion_aborts_handle :
    (∀ (attempts : ℕ → FetchAttempt) (chain : String),
      (∀ i, ∃ e, attempts i = .error e) →
      (getData attempts chain).result =
        .error "Max retries reached for fetching state data."
      ∧ (getData attempts chain).attemptsMade = 3
      ∧ (getData attempts chain).sleepTotal =
          STATE_RETRY_DELAY * (STATE_RETRIES - 1))
    ∧ (∀ (e : String) (providers : List String),
        handleRun (.error e) providers = .error e)
    ∧ (∀ (d : DocEntry) (providers : List String),
        handleRun (.ok d) providers =
          .ok { probesRun := providers.length, status := "done" })
    ∧ (∀ (attempts : ℕ → FetchAttempt) (doc : StateDocument) (chain : String),
        attempts 1 = .ok doc →
        docGet (pyLower chain) (backfillOldBlock doc) = none →
        (getData attempts chain).result = .ok (.obj [])) := by
  refine ⟨?_, fun e providers => rfl, fun d providers => rfl, ?_⟩
  · intro attempts chain h
    obtain ⟨e1, he1⟩ := h 1
    obtain ⟨e2, he2⟩ := h 2
    obtain ⟨e3, he3⟩ := h 3
    simp [getData, getDataGo, STATE_RETRIES, STATE_RETRY_DELAY, he1, he2, he3]
  · intro attempts doc chain h1 hmiss
    simp [getData, getDataGo, STATE_RETRIES, h1, hmiss]

/-- Witness for state_retry_exhaustion_aborts_handle at the all-failing
store, a concrete provider list, and a document without an ethereum
entry. -/
theorem state_retry_exhaustion_witness :
    ((getData failingStore "ethereum").result =
        .error "Max retries reached for fetching state data."
      ∧ (getData failingStore "ethereum").attemptsMade = 3
      ∧ (getData failingStore "ethereum").sleepTotal =
          STATE_RETRY_DELAY * (STATE_RETRIES - 1))
    ∧ (getData (fun _ => .ok [("updated_at", .num 5)]) "ethereum").result =
        .ok (.obj []) :=
  ⟨state_retry_exhaustion_aborts_handle.1 failingStore "ethereum"
     (fun _ => ⟨"connection error", rfl⟩),
   state_retry_exhaustion_aborts_handle.2.2.2
     (fun _ => .ok [("updated_at", .num 5)]) [("updated_at", .num 5)]
     "ethereum" rfl rfl⟩

/-- Claim C6: registering the transaction-landing probe type
(SolanaLandingMetric) with both a main and a non-empty alternate tx
endpoint configured yields exactly two instances — one on the main
endpoint with the plain provider label, one on the alternate endpoint with
the provider label suffixed _tx — sharing source-region, target-region and
blockchain labels; with no alternate endpoint exactly one instance is
created. -/
theorem solana_landing_dual_instances :
    (∀ (chain name provider sr tr http tx : String) (ws : Option String),
      tx ≠ "" →
      createMetrics chain [⟨"SolanaLandingMetric", name⟩]
        ⟨some http, ws, some tx, provider, sr, tr⟩ =
        [ { className := "SolanaLandingMetric", metric_name := name
          , labels := mkMetricLabels sr tr chain provider
          , endpoints := ⟨some http, none, ws⟩ }
        , { className := "SolanaLandingMetric", metric_name := name
          , labels := mkMetricLabels sr tr chain (provider ++ "_tx")
          , endpoints := ⟨some tx, none, ws⟩ } ])
    ∧ (∀ (chain name provider sr tr http : String) (ws : Option String),
      createMetrics chain [⟨"SolanaLandingMetric", name⟩]
        ⟨some http, ws, none, provider, sr, tr⟩ =
        [ { className := "SolanaLandingMetric", metric_name := name
          , labels := mkMetricLabels sr tr chain provider
          , endpoints := ⟨some http, none, ws⟩ } ]) := by
  constructor
  · intro chain name provider sr tr http tx ws htx
    simp [createMetrics, createSolanaMetrics, createSingleMetric, pyTruthy, htx]
  · intro chain name provider sr tr http ws
    simp [createMetrics, createSolanaMetrics, createSingleMetric, pyTruthy]

/-- Witness for solana_landing_dual_instances at concrete endpoints and
the provider name of the claim. -/
theorem solana_landing_dual_instances_witness :
    createMetrics "solana" [⟨"SolanaLandingMetric", "tx_landing"⟩]
      ⟨some "https://main.example", none, some "https://tx.example",
        "providerX", "fra1", "us-east"⟩ =
      [ { className := "SolanaLandingMetric", metric_name := "tx_landing"
        , labels := mkMetricLabels "fra1" "us-east" "solana" "providerX"
        , endpoints := ⟨some "https://main.example", none, none⟩ }
      , { className := "SolanaLandingMetric", metric_name := "tx_landing"
        , labels := mkMetricLabels "fra1" "us-east" "solana" "providerX_tx"
        , endpoints := ⟨some "https://tx.example", none, none⟩ } ] :=
  solana_landing_dual_instances.1 "solana" "tx_landing" "providerX" "fra1"
    "us-east" "https://main.example" "https://tx.example" none (by decide)

/-- docGet distributes over the backward-compatibility pass. -/
lemma docGet_backfill (k : String) (d : StateDocument) :
    docGet k (backfillOldBlock d) = (docGet k d).map backfillEntry := by
  induction d with
  | nil => rfl
  | cons p rest ih =>
      by_cases hk : p.1 = k
      · simp [backfillOldBlock, docGet, hk]
      · simp [backfillOldBlock, docGet, hk] at ih ⊢
        exact ih

/-- docGet of a key found in the prefix is unchanged by an append. -/
lemma docGet_append_of_some (k : String) (d l : StateDocument) (v : DocEntry)
    (h : docGet k d = some v) : docGet k (d ++ l) = some v := by
  induction d with
  | nil => simp [docGet] at h
  | cons p rest ih =>
      by_cases hk : p.1 = k
      · simp [docGet, hk] at h ⊢
        exact h
      · simp [docGet, hk] at h ⊢
        exact ih h

/-- docGet of a key absent from the prefix finds the appended entry. -/
lemma docGet_append_of_none (k : String) (d : StateDocument) (v : DocEntry)
    (h : docGet k d = none) : docGet k (d ++ [(k, v)]) = some v := by
  induction d with
  | nil => simp [docGet]
  | cons p rest ih =>
      by_cases hk : p.1 = k
      · simp [docGet, hk] at h
      · simp [docGet, hk] at h ⊢
        exact ih h

/-- Replacing every entry of one key rewrites exactly that key's docGet. -/
lemma docGet_map_set (k : String) (v : DocEntry) (d : StateDocument) :
    docGet k (d.map (fun p => if p.1 = k then (p.1, v) else p)) =
      (docGet k d).map (fun _ => v) := by
  induction d with
  | nil => rfl
  | cons p rest ih =>
      by_cases hk : p.1 = k
      · simp [docGet, hk]
      · simp [docGet, hk, ih]

/-- Replacing every entry of a different key leaves docGet unchanged. -/
lemma docGet_map_set_ne (k k2 : String) (v : DocEntry) (d : StateDocument)
    (h : k ≠ k2) :
    docGet k (d.map (fun p => if p.1 = k2 then (p.1, v) else p)) =
      docGet k d := by
  have h2 : ¬k2 = k := fun hc => h hc.symm
  induction d with
  | nil => rfl
  | cons p rest ih =>
      by_cases hk2 : p.1 = k2
      · simp [docGet, hk2, h2, ih]
      · by_cases hk : p.1 = k
        · simp [docGet, hk2, hk, h]
        · simp [docGet, hk2, hk, ih]

/-- docGet skips an appended entry of a different key. -/
lemma docGet_append_ne (k k2 : String) (v : DocEntry) (d : StateDocument)
    (h : k ≠ k2) : docGet k (d ++ [(k2, v)]) = docGet k d := by
  have h2 : ¬k2 = k := fun hc => h hc.symm
  induction d with
  | nil => simp [docGet, h2]
  | cons p rest ih =>
      by_cases hk : p.1 = k
      · simp [docGet, hk]
      · simp [docGet, hk, ih]

/-- Dict assignment makes the assigned key read back as the new value. -/
lemma docGet_docAssign_same (k : String) (v : DocEntry) (d : StateDocument) :
    docGet k (docAssign d k v) = some v := by
  unfold docAssign
  by_cases hp : (docGet k d).isSome
  · rw [if_pos hp]
    obtain ⟨w, hw⟩ := Option.isSome_iff_exists.mp hp
    rw [docGet_map_set, hw]
    rfl
  · rw [if_neg hp]
    exact docGet_append_of_none k d v (Option.not_isSome_iff_eq_none.mp hp)

/-- Dict assignment leaves every other key's read unchanged. -/
lemma docGet_docAssign_ne (k k2 : String) (v : DocEntry) (d : StateDocument)
    (h : k ≠ k2) : docGet k (docAssign d k2 v) = docGet k d := by
  unfold docAssign
  by_cases hp : (docGet k2 d).isSome
  · rw [if_pos hp]
    exact docGet_map_set_ne k k2 v d h
  · rw [if_neg hp]
    exact docGet_append_ne k k2 v d h

/-- What BlobStorageHandler.update leaves under the chain key: exactly the
block and tx fields. -/
lemma docGet_blobUpdate (doc : StateDocument) (chain block tx : String)
    (now : ℤ) (hchain : chain ≠ "updated_at") :
    docGet chain (blobUpdate doc chain block tx now) =
      some (.obj [("block", block), ("tx", tx)]) := by
  unfold blobUpdate
  rw [docGet_docAssign_ne chain "updated_at" _ _ hchain, docGet_docAssign_same]

/-- Counterexample for claim C7: writing the reference state of the claim
for ethereum through BlobStorageHandler.update — whose parameters are only
the chain, block and tx — and reading it back through the Reference-State
Cache does not return an identical structure: the old-block value 0x1 is
not persisted by this write path, and the read backfills it as the empty
string. -/
theorem blob_roundtrip_drops_old_block_cex :
    readChain (blobUpdate [] "ethereum" "0x10" "0xab" 111) "ethereum" =
      .obj [("block", "0x10"), ("tx", "0xab"), ("old_block", "")]
    ∧ readChain (blobUpdate [] "ethereum" "0x10" "0xab" 111) "ethereum" ≠
        .obj [("block", "0x10"), ("tx", "0xab"), ("old_block", "0x1")] :=
  ⟨rfl, by decide⟩

/-- Claim C7 as amended: writing block and tx for ethereum through
BlobStorageHandler.update (the write path persists only those two fields)
and reading back through BlockchainState yields the block and tx values
unchanged with old_block backfilled to the empty string; a stored chain
document that predates the old-block field likewise reads back with
old_block as the empty string rather than raising, and one that has the
field reads back unchanged. -/
theorem blob_roundtrip_block_tx :
    (∀ (doc : StateDocument) (block tx : String) (now : ℤ),
      readChain (blobUpdate doc "ethereum" block tx now) "ethereum" =
        .obj [("block", block), ("tx", tx), ("old_block", "")])
    ∧ (∀ fields : List (String × String),
        fieldGet "old_block" fields = none →
        readChain [("ethereum", .obj fields)] "ethereum" =
          .obj (fields ++ [("old_block", "")]))
    ∧ (∀ (fields : List (String × String)) (v : String),
        fieldGet "old_block" fields = some v →
        readChain [("ethereum", .obj fields)] "ethereum" = .obj fields) := by
  refine ⟨?_, ?_, ?_⟩
  · intro doc block tx now
    have hlow : pyLower "ethereum" = "ethereum" := rfl
    have h := docGet_blobUpdate doc "ethereum" block tx now (by decide)
    unfold readChain
    rw [hlow, docGet_backfill, h]
    rfl
  · intro fields h
    unfold readChain
    rw [show pyLower "ethereum" = "ethereum" from rfl, docGet_backfill]
    simp [docGet, backfillEntry, h]
  · intro fields v h
    unfold readChain
    rw [show pyLower "ethereum" = "ethereum" from rfl, docGet_backfill]
    simp [docGet, backfillEntry, h]

/-- Witness for blob_roundtrip_block_tx at the claim's concrete state and
at a legacy ethereum document without the old-block field. -/
theorem blob_roundtrip_block_tx_witness :
    readChain (blobUpdate [] "ethereum" "0x10" "0xab" 111) "ethereum" =
      .obj [("block", "0x10"), ("tx", "0xab"), ("old_block", "")]
    ∧ readChain [("ethereum", .obj [("block", "0xa"), ("tx", "0xb")])]
        "ethereum" =
        .obj [("block", "0xa"), ("tx", "0xb"), ("old_block", "")] :=
  ⟨blob_roundtrip_block_tx.1 [] "0x10" "0xab" 111,
   blob_roundtrip_block_tx.2.1 [("block", "0xa"), ("tx", "0xb")] rfl⟩

/-- Counterexample for claim C8: with latest slot 2000 and offset 1000 the
target slot is 1000, and with blocks existing only at slots 900 and 1000
the code's search accepts slot 900 — the lowest existing slot of the
window, reached by scanning upward from target - 100 — while a search
proceeding downward from the target slot accepting the first existing
slot would return slot 1000. -/
theorem solana_search_direction_cex :
    solanaOldBlockSearch exampleAvail 2000 1000 = .ok (900, "blk")
    ∧ specDownwardSearch exampleAvail 2000 1000 = .ok (1000, "blk")
    ∧ (900 : ℤ) ≠ 1000 :=
  ⟨rfl, rfl, by decide⟩

/-- Claim C8 as amended: the old-block search scans the bounded window
from target_slot - 100 up to target_slot in ascending order, accepting the
first existing slot of that order; a Block-not-available outcome (the
-32004 error, raised by _make_rpc_request after a single attempt with no
retry) moves the search to the next slot, and any other error aborts the
search. -/
theorem solana_search_window_ascending :
    (∀ (f : ℤ → SlotOutcome) (latest offset : ℤ),
      solanaOldBlockSearch f latest offset =
        scanSlots f (slotRange (max 0 (latest - offset) - 100)
          (max 0 (latest - offset))))
    ∧ (∀ (a b s : ℤ), s ∈ slotRange a b → a ≤ s ∧ s ≤ b)
    ∧ (∀ (f : ℤ → SlotOutcome) (s : ℤ) (rest : List ℤ) (b : String),
        f s = .ok (some b) → scanSlots f (s :: rest) = .ok (s, b))
    ∧ (∀ (f : ℤ → SlotOutcome) (s : ℤ) (rest : List ℤ),
        f s = .notAvailable → scanSlots f (s :: rest) = scanSlots f rest)
    ∧ (∀ (f : ℤ → SlotOutcome) (s : ℤ) (rest : List ℤ) (msg : String),
        f s = .otherError msg → scanSlots f (s :: rest) = .error msg)
    ∧ (∀ responses : ℕ → RawRpcResponse,
        responses 1 = .rpcError (-32004) →
        makeRpcRequest responses =
          { outcome := .error "Block not available", attemptsMade := 1 }) := by
  refine ⟨fun f latest offset => rfl, ?_, ?_, ?_, ?_, ?_⟩
  · intro a b s hs
    obtain ⟨i, hi, heq⟩ := List.mem_map.mp hs
    rw [List.mem_range] at hi
    omega
  · intro f s rest b h
    simp [scanSlots, h]
  · intro f s rest h
    simp [scanSlots, h]
  · intro f s rest msg h
    simp [scanSlots, h]
  · intro responses h
    simp [makeRpcRequest, makeRpcRequestGo, FETCHER_MAX_RETRIES, h]

/-- Witness for solana_search_window_ascending at the concrete skipped-slot
availability of the counterexample scenario. -/
theorem solana_search_window_witness :
    ((-100 : ℤ) ≤ -50 ∧ (-50 : ℤ) ≤ 0)
    ∧ scanSlots exampleAvail (900 :: [901]) = .ok (900, "blk")
    ∧ scanSlots exampleAvail (899 :: [900]) = scanSlots exampleAvail [900]
    ∧ makeRpcRequest (fun _ => .rpcError (-32004)) =
        { outcome := .error "Block not available", attemptsMade := 1 } :=
  ⟨solana_search_window_ascending.2.1 (-100) 0 (-50) (by decide),
   solana_search_window_ascending.2.2.1 exampleAvail 900 [901] "blk" rfl,
   solana_search_window_ascending.2.2.2.1 exampleAvail 899 [900] rfl,
   solana_search_window_ascending.2.2.2.2.2 (fun _ => .rpcError (-32004)) rfl⟩

/-- Counterexample for claim C4: the cleanup of
WebSocketMetric.collect_metric is a plain finally block with no
asyncio.shield, so when the run is cancelled at the listen await and the
cancellation is delivered again at the unsubscribe await, the unsubscribe
does not run to completion, the socket close is never attempted, and the
cancellation propagates out of the probe. -/
theorem ws_cleanup_not_shielded_cex :
    (wsCollectMetric cancelDuringCleanupEnv).unsubStarted = true
    ∧ (wsCollectMetric cancelDuringCleanupEnv).unsubCompleted = false
    ∧ (wsCollectMetric cancelDuringCleanupEnv).closeStarted = false
    ∧ (wsCollectMetric cancelDuringCleanupEnv).exit = .cancelledPropagated := by
  decide

/-- Claim C4 as amended: for a probe whose connection and subscription
succeeded and whose task is cancelled mid-listen, the finally clause still
attempts the unsubscribe; when no further cancellation is delivered during
cleanup both unsubscribe and close run, an ordinary exception raised by
the close is logged and not propagated (the pending cancellation is
re-raised instead), and an ordinary exception raised by the unsubscribe is
likewise logged and not propagated but skips the close; the cleanup is not
shielded, so a cancellation delivered at the unsubscribe await aborts the
cleanup before the close and propagates. -/
theorem ws_cleanup_finally_behaviour :
    ∀ env : WsRunEnv, env.connect = .ok → env.subscribe = .ok →
      env.listen = .cancel →
      (wsCollectMetric env).unsubStarted = true
      ∧ (env.unsub = .ok → env.close = .ok →
          (wsCollectMetric env).unsubCompleted = true
          ∧ (wsCollectMetric env).closeCompleted = true
          ∧ (wsCollectMetric env).exit = .cancelledPropagated)
      ∧ (env.unsub = .ok → env.close = .exc →
          (wsCollectMetric env).closeStarted = true
          ∧ (wsCollectMetric env).cleanupErrorLogged = true
          ∧ (wsCollectMetric env).exit = .cancelledPropagated)
      ∧ (env.unsub = .exc →
          (wsCollectMetric env).cleanupErrorLogged = true
          ∧ (wsCollectMetric env).closeStarted = false
          ∧ (wsCollectMetric env).exit = .cancelledPropagated)
      ∧ (env.unsub = .cancel →
          (wsCollectMetric env).unsubCompleted = false
          ∧ (wsCollectMetric env).closeStarted = false
          ∧ (wsCollectMetric env).exit = .cancelledPropagated) := by
  intro env h1 h2 h3
  obtain ⟨c, s, l, d, u, cl⟩ := env
  simp only at h1 h2 h3
  subst h1 h2 h3
  cases u <;> cases cl <;>
    simp [wsCollectMetric, wsCleanup]

/-- Witness for ws_cleanup_finally_behaviour at a run cancelled mid-listen
whose cleanup itself is not interrupted. -/
theorem ws_cleanup_finally_behaviour_witness :
    (wsCollectMetric ⟨.ok, .ok, .cancel, false, .ok, .ok⟩).unsubStarted = true
    ∧ ((StepOutcome.ok = StepOutcome.ok → StepOutcome.ok = StepOutcome.ok →
        (wsCollectMetric ⟨.ok, .ok, .cancel, false, .ok, .ok⟩).unsubCompleted = true
        ∧ (wsCollectMetric ⟨.ok, .ok, .cancel, false, .ok, .ok⟩).closeCompleted = true
        ∧ (wsCollectMetric ⟨.ok, .ok, .cancel, false, .ok, .ok⟩).exit =
            .cancelledPropagated)) :=
  ⟨(ws_cleanup_finally_behaviour ⟨.ok, .ok, .cancel, false, .ok, .ok⟩
      rfl rfl rfl).1,
   (ws_cleanup_finally_behaviour ⟨.ok, .ok, .cancel, false, .ok, .ok⟩
      rfl rfl rfl).2.1⟩

/-- Value-bag lookup skips a prefix that does not hold the key. -/
lemma dictGet_append_of_not_mem (k : String) (pre post : ValueBag)
    (h : k ∉ pre.map Prod.fst) :
    dictGet k (pre ++ post) = dictGet k post := by
  induction pre with
  | nil => rfl
  | cons p rest ih =>
      simp only [List.map_cons, List.mem_cons, not_or] at h
      have hk : ¬p.1 = k := fun hc => h.1 hc.symm
      simp [dictGet, hk, ih h.2]

/-- Replacing a key's first entry skips a prefix without the key. -/
lemma setFirst_append_of_not_mem (k : String) (v : MetricValue)
    (pre post : ValueBag) (h : k ∉ pre.map Prod.fst) :
    setFirst k v (pre ++ post) = pre ++ setFirst k v post := by
  induction pre with
  | nil => rfl
  | cons p rest ih =>
      simp only [List.map_cons, List.mem_cons, not_or] at h
      have hk : ¬p.1 = k := fun hc => h.1 hc.symm
      simp [setFirst, hk, ih h.2]

/-- The zeroing fold of mark_failure over the keys of the yet-unprocessed
suffix of the value bag: every suffix entry is zeroed in place with its
per-value labels kept, the processed prefix, the key order and the label
set are untouched. -/
lemma markFailure_fold (name : String) (labels : List MetricLabel) :
    ∀ (V pre : ValueBag), ((pre ++ V).map Prod.fst).Nodup →
      ((V.map Prod.fst).foldl
        (fun acc vt => updateMetricValue acc (.i 0) vt none)
        { metric_name := name, labels := labels, values := pre ++ V }) =
      { metric_name := name, labels := labels
      , values := pre ++
          V.map (fun p => (p.1, MetricValue.mk (.i 0) p.2.labels)) } := by
  intro V
  induction V with
  | nil => intro pre h; simp
  | cons p V ih =>
      intro pre h
      have hmapeq : (pre ++ p :: V).map Prod.fst =
          pre.map Prod.fst ++ p.1 :: V.map Prod.fst := by simp
      rw [hmapeq] at h
      have hnotmem : p.1 ∉ pre.map Prod.fst := by
        rcases List.nodup_append.mp h with ⟨-, -, hdisj⟩
        intro hc
        exact hdisj hc (List.mem_cons_self p.1 (V.map Prod.fst))
      have hget : dictGet p.1 (pre ++ p :: V) = some p.2 := by
        rw [dictGet_append_of_not_mem p.1 pre (p :: V) hnotmem]
        simp [dictGet]
      have hstep :
          updateMetricValue
            { metric_name := name, labels := labels, values := pre ++ p :: V }
            (.i 0) p.1 none =
          { metric_name := name, labels := labels
          , values := (pre ++ [(p.1, MetricValue.mk (.i 0) p.2.labels)]) ++ V } := by
        unfold updateMetricValue
        rw [hget]
        unfold dictSet
        rw [hget]
        simp only [Option.isSome_some, if_pos]
        rw [setFirst_append_of_not_mem p.1 _ pre (p :: V) hnotmem]
        simp [setFirst, pyOrLabels]
      have hkeys : ((pre ++ [(p.1, MetricValue.mk (.i 0) p.2.labels)]) ++ V).map
          Prod.fst = pre.map Prod.fst ++ p.1 :: V.map Prod.fst := by simp
      have hrec := ih (pre ++ [(p.1, MetricValue.mk (.i 0) p.2.labels)])
        (by rw [hkeys]; exact h)
      simp only [List.map_cons, List.foldl_cons, hstep, hrec]
      simp

/-- Claim C1: mark_failure sets the response_status label to failed and
rewrites every existing value-bag entry to the int value 0 in place,
keeping each entry's per-value label overrides (update_metric_value is
called with labels None, so the existing labels are taken), preserving the
key set and order, adding no entry and removing none; all other labels of
the constructor-built label set are untouched. -/
theorem mark_failure_zeroes_preserving :
    ∀ (name sr tr bc pv : String) (V : ValueBag),
      (V.map Prod.fst).Nodup →
      (markFailure ⟨name, mkMetricLabels sr tr bc pv, V⟩).values =
          V.map (fun p => (p.1, MetricValue.mk (.i 0) p.2.labels))
      ∧ (markFailure ⟨name, mkMetricLabels sr tr bc pv, V⟩).labels =
          mkMetricLabels sr tr bc pv "default" "failed"
      ∧ getLabel .responseStatus
          (markFailure ⟨name, mkMetricLabels sr tr bc pv, V⟩).labels =
          some "failed"
      ∧ (markFailure ⟨name, mkMetricLabels sr tr bc pv, V⟩).values.map
          Prod.fst = V.map Prod.fst := by
  intro name sr tr bc pv V hnd
  have hlab : updateLabel .responseStatus "failed"
      (mkMetricLabels sr tr bc pv) =
      mkMetricLabels sr tr bc pv "default" "failed" := rfl
  have hfold := markFailure_fold name
    (updateLabel .responseStatus "failed" (mkMetricLabels sr tr bc pv)) V []
    (by simpa using hnd)
  have hm : markFailure ⟨name, mkMetricLabels sr tr bc pv, V⟩ =
      { metric_name := name
      , labels := mkMetricLabels sr tr bc pv "default" "failed"
      , values := V.map (fun p => (p.1, MetricValue.mk (.i 0) p.2.labels)) } := by
    unfold markFailure
    simpa [hlab] using hfold
  refine ⟨by rw [hm], by rw [hm], by rw [hm]; rfl, by rw [hm]; simp⟩

/-- Witness for mark_failure_zeroes_preserving at a two-entry value bag
whose first entry carries per-value label overrides. -/
theorem mark_failure_zeroes_witness :
    (markFailure ⟨"metric", mkMetricLabels "s" "t" "b" "p", exampleBag⟩).values =
        exampleBag.map (fun p => (p.1, MetricValue.mk (.i 0) p.2.labels))
    ∧ (markFailure ⟨"metric", mkMetricLabels "s" "t" "b" "p", exampleBag⟩).labels =
        mkMetricLabels "s" "t" "b" "p" "default" "failed"
    ∧ getLabel .responseStatus
        (markFailure ⟨"metric", mkMetricLabels "s" "t" "b" "p", exampleBag⟩).labels =
        some "failed"
    ∧ (markFailure ⟨"metric", mkMetricLabels "s" "t" "b" "p", exampleBag⟩).values.map
        Prod.fst = exampleBag.map Prod.fst :=
  mark_failure_zeroes_preserving "metric" "s" "t" "b" "p" exampleBag (by decide)

end Dashboard
